import Mathlib

/-!
Shallow embedding of the mountory-core data-access layer (CRUD functions for
Activity, Location and Manufacturer) and proofs about its update resolution,
null-aware filtering, association-set synchronization and read-many queries.

Identifiers (UUIDs in the source) are modelled as `Nat`, datetimes and
durations as `Int`, enumerations (`ActivityType`, `LocationType`,
`ManufacturerAccessRole`) as `Nat`.  A nullable SQL column is `Option`.
SQL three-valued logic for `IN` predicates is modelled by the usual rule that
a row passes a filter only when the predicate evaluates to TRUE: a comparison
with NULL is never TRUE.
-/

namespace Mountory

/-- Embedding of `mountory_core.util.create_filter_in_with_none` evaluated on
one row: `column` is the row's value for the filtered column and `collection`
the caller-supplied collection, whose `none` element is Python's `None`
marker.  `column.in_(collection)` under SQL semantics is TRUE exactly when
the column is non-null and its value appears among the non-null elements. -/
def sql_in {α : Type} [DecidableEq α] (column : Option α)
    (collection : List (Option α)) : Bool :=
  match column with
  | none => false
  | some v => collection.contains (some v)

/-- The filter built by `create_filter_in_with_none`: `column.in_(collection)`,
or-ed with `column.is_(None)` when the collection contains the null marker. -/
def create_filter_in_with_none {α : Type} [DecidableEq α] (column : Option α)
    (collection : List (Option α)) : Bool :=
  let f := sql_in column collection
  if collection.contains none then f || column.isNone else f

/-- Row of the `activity` table. -/
structure ActivityRow where
  id : Nat
  title : String
  description : Option String := none
  start : Option Int := none
  duration : Option Int := none
  location_id : Option Nat := none
  parent_id : Option Nat := none
deriving DecidableEq

/-- Row of the `location` table. -/
structure LocationRow where
  id : Nat
  name : String
  abbreviation : Option String := none
  website : Option String := none
  location_type : Nat := 0
  parent_id : Option Nat := none
deriving DecidableEq

/-- Row of the `equipment_manufacturer` table. -/
structure ManufacturerRow where
  id : Nat
  name : String
  short_name : Option String := none
  description : Option String := none
  website : Option String := none
  hidden : Bool := true
deriving DecidableEq

/-- Row of the `equipment_manufacturer_access` table. -/
structure AccessRow where
  manufacturer_id : Nat
  user_id : Nat
  role : Nat
deriving DecidableEq

/-- The database state: one list of rows per table.  Association tables
`activityuserlink`, `activitytypeassociation` and
`locationactivitytypeassociation` are lists of `(owner_id, target)` pairs. -/
structure DB where
  activities : List ActivityRow := []
  userLinks : List (Nat × Nat) := []
  typeAssocs : List (Nat × Nat) := []
  locations : List LocationRow := []
  locationTypeAssocs : List (Nat × Nat) := []
  manufacturers : List ManufacturerRow := []
  manufacturerAccesses : List AccessRow := []
deriving DecidableEq

/-- SQL statements a CRUD call can execute, recorded as a trace so that
"performs zero writes" and "never commits" claims are statable. -/
inductive Stmt where
  | deleteUserLinks (activity_id : Nat)
  | insertUserLinks (activity_id : Nat) (users : List Nat)
  | deleteTypeAssocs (activity_id : Nat)
  | insertTypeAssocs (activity_id : Nat) (types : List Nat)
  | updateActivity (activity_id : Nat)
  | updateManufacturer (manufacturer_id : Nat)
  | updateLocation (location_id : Nat)
  | deleteLocationTypeAssocs (location_id : Nat)
  | insertLocationTypeAssocs (location_id : Nat) (types : List Nat)
  | insertActivity (activity_id : Nat)
  | insertLocation (location_id : Nat)
  | insertManufacturer (manufacturer_id : Nat)
  | commitTx
deriving DecidableEq

/-- A reference-typed update argument: the Python parameter accepts a full
related object (normalized to its id), a raw id, or the clearing sentinel
`""`; `Option RefArg` adds the absent (`None`) case. -/
inductive RefArg where
  | obj (id : Nat)
  | rawId (id : Nat)
  | emptyStr
deriving DecidableEq

/-- The `data_` dictionary built by `update_activity_by_id`: an outer `none`
means the key is absent from the dict, an inner `none` means the key is
present with value SQL NULL. -/
structure ActivityData where
  title : Option String := none
  description : Option (Option String) := none
  start : Option (Option Int) := none
  duration : Option (Option Int) := none
  location_id : Option (Option Nat) := none
  parent_id : Option (Option Nat) := none
deriving DecidableEq

/-- Python `not data_` on the dictionary. -/
def ActivityData.isEmpty (d : ActivityData) : Bool :=
  d.title.isNone && d.description.isNone && d.start.isNone && d.duration.isNone
    && d.location_id.isNone && d.parent_id.isNone

/-- Dictionary entry produced for a reference argument (`location` /
`parent`): absent stays absent, an object or raw id is normalized to the id,
the empty-string sentinel becomes NULL. -/
def refEntry : Option RefArg → Option (Option Nat)
  | none => none
  | some (RefArg.obj i) => some (some i)
  | some (RefArg.rawId i) => some (some i)
  | some RefArg.emptyStr => some none

/-- Applying the `UPDATE activity SET data_ WHERE id = ?` statement to one row. -/
def applyActivityData (d : ActivityData) (r : ActivityRow) : ActivityRow :=
  { r with
    title := d.title.getD r.title
    description := d.description.getD r.description
    start := d.start.getD r.start
    duration := d.duration.getD r.duration
    location_id := d.location_id.getD r.location_id
    parent_id := d.parent_id.getD r.parent_id }

/-- Embedding of `mountory_core.activities.crud.update_activity_by_id`
(keyword-argument path, `data=None`).  Scalar sentinels follow the source:
`title : str | None` (empty string raises), `description : str | "" | None`,
`start`, `duration : value | "" | None` are `Option (Option Int)` with
`some none` as the `""` sentinel, `users` / `types` are `Option` collections.
Returns the new database state and the trace of executed statements, or the
`ValueError` message. -/
def update_activity_by_id (db : DB) (activity_id : Nat)
    (title : Option String) (description : Option String)
    (start : Option (Option Int)) (duration : Option (Option Int))
    (location : Option RefArg) (users : Option (List Nat))
    (types : Option (List Nat)) (parent : Option RefArg)
    (commit : Bool) : Except String (DB × List Stmt) :=
  if title == some "" then Except.error "Title cannot be empty" else
  let data_ : ActivityData :=
    { title := title
      description := description.map (fun s => if s == "" then none else some s)
      start := start
      duration := duration
      location_id := refEntry location
      parent_id := refEntry parent }
  let usersStep : DB × List Stmt :=
    match users with
    | none => (db, [])
    | some us =>
      let db1 : DB :=
        { db with userLinks := db.userLinks.filter (fun l => !(l.1 == activity_id)) }
      if us.isEmpty then (db1, [Stmt.deleteUserLinks activity_id])
      else
        ({ db1 with
            userLinks := db1.userLinks ++ us.map (fun u => (activity_id, u)) },
         [Stmt.deleteUserLinks activity_id, Stmt.insertUserLinks activity_id us])
  let db2 := usersStep.1
  let typesStep : DB × List Stmt :=
    match types with
    | none => (db2, [])
    | some ts =>
      let db3 : DB :=
        { db2 with typeAssocs := db2.typeAssocs.filter (fun l => !(l.1 == activity_id)) }
      if ts.isEmpty then (db3, [Stmt.deleteTypeAssocs activity_id])
      else
        ({ db3 with
            typeAssocs := db3.typeAssocs ++ ts.map (fun t => (activity_id, t)) },
         [Stmt.deleteTypeAssocs activity_id, Stmt.insertTypeAssocs activity_id ts])
  let db4 := typesStep.1
  let tr := usersStep.2 ++ typesStep.2
  if data_.isEmpty then Except.ok (db4, tr)
  else
    let db5 : DB :=
      { db4 with
          activities := db4.activities.map
            (fun r => if r.id == activity_id then applyActivityData data_ r else r) }
    let tr5 := tr ++ [Stmt.updateActivity activity_id]
    Except.ok (db5, if commit then tr5 ++ [Stmt.commitTx] else tr5)

/-- Embedding of `create_activity` (keyword path): `newId` stands for the
fresh primary key the ORM generates.  The title check raises before any
object is staged. -/
def create_activity (db : DB) (newId : Nat) (title : Option String)
    (description : Option String) (start : Option Int) (duration : Option Int)
    (location : Option RefArg) (users : Option (List Nat))
    (types : Option (List Nat)) (parent : Option RefArg)
    (commit : Bool) : Except String (DB × ActivityRow × List Stmt) :=
  match title with
  | none => Except.error "Title is required"
  | some t =>
    if t == "" then Except.error "Title is required" else
    let activity : ActivityRow :=
      { id := newId, title := t, description := description, start := start
        duration := duration
        location_id :=
          match location with
          | some (RefArg.obj i) => some i
          | some (RefArg.rawId i) => some i
          | some RefArg.emptyStr => none
          | none => none
        parent_id :=
          match parent with
          | some (RefArg.obj i) => some i
          | some (RefArg.rawId i) => some i
          | some RefArg.emptyStr => none
          | none => none }
    let db1 : DB :=
      match types with
      | some ts =>
        if ts.isEmpty then db
        else { db with typeAssocs := db.typeAssocs ++ ts.map (fun x => (newId, x)) }
      | none => db
    let db2 : DB :=
      match users with
      | some us =>
        if us.isEmpty then db1
        else { db1 with userLinks := db1.userLinks ++ us.map (fun u => (newId, u)) }
      | none => db1
    let db3 : DB := { db2 with activities := db2.activities ++ [activity] }
    Except.ok (db3, activity,
      [Stmt.insertActivity newId] ++ (if commit then [Stmt.commitTx] else []))

/-- Embedding of `_create_location` wrapped by `create_location` (keyword
path): `name=None` raises; an empty-string `abbreviation` or `website` is
normalized to NULL; the name itself is stored as given. -/
def create_location (db : DB) (newId : Nat) (name : Option String)
    (abbreviation : Option String) (website : Option String)
    (location_type : Option Nat) (activity_types : Option (List Nat))
    (parent_id : Option Nat) (commit : Bool) :
    Except String (DB × LocationRow × List Stmt) :=
  match name with
  | none => Except.error "name must be provided"
  | some n =>
    let abbr := if abbreviation == some "" then none else abbreviation
    let web := if website == some "" then none else website
    let row : LocationRow :=
      { id := newId, name := n, abbreviation := abbr, website := web
        location_type := location_type.getD 0, parent_id := parent_id }
    let db1 : DB :=
      match activity_types with
      | some ats =>
        if ats.isEmpty then db
        else { db with
                locationTypeAssocs :=
                  db.locationTypeAssocs ++ ats.map (fun t => (newId, t)) }
      | none => db
    let db2 : DB := { db1 with locations := db1.locations ++ [row] }
    Except.ok (db2, row,
      [Stmt.insertLocation newId] ++ (if commit then [Stmt.commitTx] else []))

/-- Embedding of `_create_manufacturer` wrapped by `create_manufacturer`
(keyword path): `name=None` raises in the wrapper; empty-string
`short_name` / `description` / `website` become NULL; `hidden` defaults to
`True`. -/
def create_manufacturer (db : DB) (newId : Nat) (name : Option String)
    (short_name : Option String) (description : Option String)
    (website : Option String) (hidden : Option Bool) (commit : Bool) :
    Except String (DB × ManufacturerRow × List Stmt) :=
  match name with
  | none => Except.error "name is required"
  | some n =>
    let sn := if short_name == some "" then none else short_name
    let ds := if description == some "" then none else description
    let wb := if website == some "" then none else website
    let row : ManufacturerRow :=
      { id := newId, name := n, short_name := sn, description := ds
        website := wb, hidden := hidden.getD true }
    let db1 : DB := { db with manufacturers := db.manufacturers ++ [row] }
    Except.ok (db1, row,
      [Stmt.insertManufacturer newId] ++ (if commit then [Stmt.commitTx] else []))

/-- The `data` dictionary of `_update_manufacturer_by_id`. -/
structure ManufacturerData where
  short_name : Option (Option String) := none
  description : Option (Option String) := none
  website : Option (Option String) := none
  name : Option String := none
  hidden : Option Bool := none
deriving DecidableEq

/-- Python `not data` on the dictionary. -/
def ManufacturerData.isEmpty (d : ManufacturerData) : Bool :=
  d.short_name.isNone && d.description.isNone && d.website.isNone
    && d.name.isNone && d.hidden.isNone

/-- Applying `UPDATE equipment_manufacturer SET data WHERE id = ?` to one row. -/
def applyManufacturerData (d : ManufacturerData) (m : ManufacturerRow) :
    ManufacturerRow :=
  { m with
    short_name := d.short_name.getD m.short_name
    description := d.description.getD m.description
    website := d.website.getD m.website
    name := d.name.getD m.name
    hidden := d.hidden.getD m.hidden }

/-- Embedding of `_update_manufacturer_by_id`: the empty-name check raises
first; an empty resolved dictionary returns before any statement. -/
def update_manufacturer_by_id (db : DB) (manufacturer_id : Nat)
    (name : Option String) (short_name : Option String)
    (description : Option String) (website : Option String)
    (hidden : Option Bool) (commit : Bool) : Except String (DB × List Stmt) :=
  if name == some "" then Except.error "Name cannot be empty" else
  let data : ManufacturerData :=
    { short_name := short_name.map (fun s => if s == "" then none else some s)
      description := description.map (fun s => if s == "" then none else some s)
      website := website.map (fun s => if s == "" then none else some s)
      name := name
      hidden := hidden }
  if data.isEmpty then Except.ok (db, [])
  else
    let db1 : DB :=
      { db with
          manufacturers := db.manufacturers.map
            (fun m => if m.id == manufacturer_id then applyManufacturerData data m
                      else m) }
    Except.ok (db1,
      [Stmt.updateManufacturer manufacturer_id]
        ++ (if commit then [Stmt.commitTx] else []))

/-- The `data` dictionary of `_update_location_by_id`. -/
structure LocationData where
  name : Option String := none
  abbreviation : Option (Option String) := none
  website : Option (Option String) := none
  parent_id : Option (Option Nat) := none
  location_type : Option Nat := none
deriving DecidableEq

/-- Python `data` truthiness (negated) on the dictionary. -/
def LocationData.isEmpty (d : LocationData) : Bool :=
  d.name.isNone && d.abbreviation.isNone && d.website.isNone
    && d.parent_id.isNone && d.location_type.isNone

/-- Applying `UPDATE location SET data WHERE id = ?` to one row. -/
def applyLocationData (d : LocationData) (r : LocationRow) : LocationRow :=
  { r with
    name := d.name.getD r.name
    abbreviation := d.abbreviation.getD r.abbreviation
    website := d.website.getD r.website
    parent_id := d.parent_id.getD r.parent_id
    location_type := d.location_type.getD r.location_type }

/-- Embedding of `_update_location_by_id`: name check first, then the scalar
`UPDATE` (only when the dictionary is non-empty), then the activity-type
association synchronization, then the commit.  `parent_id` is
`LocationId | "" | None`, modelled as `Option (Option Nat)` with `some none`
as the `""` sentinel. -/
def update_location_by_id (db : DB) (location_id : Nat)
    (name : Option String) (abbreviation : Option String)
    (website : Option String) (location_type : Option Nat)
    (activity_types : Option (List Nat)) (parent_id : Option (Option Nat))
    (commit : Bool) : Except String (DB × List Stmt) :=
  if name == some "" then Except.error "name cannot be empty" else
  let data : LocationData :=
    { name := name
      abbreviation := abbreviation.map (fun s => if s == "" then none else some s)
      website := website.map (fun s => if s == "" then none else some s)
      parent_id := parent_id
      location_type := location_type }
  let updStep : DB × List Stmt :=
    if data.isEmpty then (db, [])
    else
      ({ db with
          locations := db.locations.map
            (fun r => if r.id == location_id then applyLocationData data r else r) },
       [Stmt.updateLocation location_id])
  let db1 := updStep.1
  let assocStep : DB × List Stmt :=
    match activity_types with
    | none => (db1, [])
    | some ats =>
      let db2 : DB :=
        { db1 with
            locationTypeAssocs :=
              db1.locationTypeAssocs.filter (fun l => !(l.1 == location_id)) }
      if ats.isEmpty then (db2, [Stmt.deleteLocationTypeAssocs location_id])
      else
        ({ db2 with
            locationTypeAssocs :=
              db2.locationTypeAssocs ++ ats.map (fun t => (location_id, t)) },
         [Stmt.deleteLocationTypeAssocs location_id,
          Stmt.insertLocationTypeAssocs location_id ats])
  Except.ok (assocStep.1,
    updStep.2 ++ assocStep.2 ++ (if commit then [Stmt.commitTx] else []))

/-- Sorting by a boolean comparator, as `ORDER BY` does (insertion sort keeps
the embedding executable). -/
def sortByRel {α : Type} (r : α → α → Bool) (l : List α) : List α :=
  List.insertionSort (fun a b => r a b = true) l

/-- Strict lexicographic comparison of character lists, the order of
`ORDER BY` on a text column under binary collation. -/
def charListLt : List Char → List Char → Bool
  | [], [] => false
  | [], _ :: _ => true
  | _ :: _, [] => false
  | a :: as, b :: bs =>
    if a < b then true else if b < a then false else charListLt as bs

/-- Reflexive closure of `charListLt`, via totality of the character order. -/
def charListLe (a b : List Char) : Bool := !(charListLt b a)

/-- Boolean string comparison used for `ORDER BY column` on a text column
under binary collation: lexicographic on the characters. -/
def strLeB (a b : String) : Bool := charListLe a.data b.data

/-- The sort key of `ORDER BY lower(manufacturer.name)`: the name lowercased
character by character. -/
def lowerKey (s : String) : List Char := s.data.map Char.toLower

/-- Key order used by `ORDER BY activity.start DESC`: a row sorts before
another when its start is larger.  The placement of NULL starts is
backend-dependent in SQL; the embedding fixes NULL as the smallest key
(NULLs last under DESC), and the ordering theorems only rely on the
relative order of rows that have a start. -/
def startDescLe (a b : Option Int) : Bool :=
  match a, b with
  | _, none => true
  | none, some _ => false
  | some x, some y => decide (y ≤ x)

/-- Combined row predicate of `read_locations`: the `location_type` membership
filter (skipped when the collection is `None` or empty, mirroring the
truthiness test) and the null-aware `parent_id` filter. -/
def locationMatches (location_types : Option (List Nat))
    (parent_ids : Option (List (Option Nat))) (r : LocationRow) : Bool :=
  (match location_types with
   | some lts => if lts.isEmpty then true else lts.contains r.location_type
   | none => true)
  && (match parent_ids with
      | some ps =>
        if ps.isEmpty then true else create_filter_in_with_none r.parent_id ps
      | none => true)

/-- Embedding of `read_locations`: the data statement filters, orders by
`name` and paginates; the count statement applies the same filters with no
ordering or pagination. -/
def read_locations (db : DB) (skip limit : Nat)
    (location_types : Option (List Nat))
    (parent_ids : Option (List (Option Nat))) : List LocationRow × Nat :=
  let matched := db.locations.filter (locationMatches location_types parent_ids)
  let sorted := sortByRel (fun a b => strLeB a.name b.name) matched
  (((sorted.drop skip).take limit),
   (db.locations.filter (locationMatches location_types parent_ids)).length)

/-- The FROM clause of `read_activities`: plain `activity` rows, or — when an
`activity_types` collection was passed (`is not None`, even empty) — the
filtered `activitytypeassociation` subquery LEFT OUTER JOINed to `activity`.
A join row without a matching activity carries a NULL activity (`none`). -/
def activityBaseRows (db : DB) (activity_types : Option (List Nat)) :
    List (Option ActivityRow) :=
  match activity_types with
  | none => db.activities.map some
  | some ats =>
    let associated := db.typeAssocs.filter
      (fun a => create_filter_in_with_none (some a.2) (ats.map some))
    associated.flatMap (fun a =>
      let ms := db.activities.filter (fun r => r.id == a.1)
      if ms.isEmpty then [none] else ms.map some)

/-- The null-aware `location_id` filter of `read_activities`, skipped for a
`None` or empty collection (truthiness test in the source). -/
def activityFilterLoc (location_ids : Option (List (Option Nat)))
    (rows : List (Option ActivityRow)) : List (Option ActivityRow) :=
  match location_ids with
  | some ls =>
    if ls.isEmpty then rows
    else rows.filter
      (fun r => create_filter_in_with_none (r.bind (fun a => a.location_id)) ls)
  | none => rows

/-- The null-aware `parent_id` filter of `read_activities`, skipped for a
`None` or empty collection. -/
def activityFilterParent (parent_ids : Option (List (Option Nat)))
    (rows : List (Option ActivityRow)) : List (Option ActivityRow) :=
  match parent_ids with
  | some ps =>
    if ps.isEmpty then rows
    else rows.filter
      (fun r => create_filter_in_with_none (r.bind (fun a => a.parent_id)) ps)
  | none => rows

/-- The `user_ids` dimension of `read_activities`: LEFT OUTER JOIN to
`activityuserlink` followed by `user_id IN (...)` — the null-extended join
row never passes the IN filter, and a row is kept once per matching link. -/
def activityJoinUsers (db : DB) (user_ids : Option (List Nat))
    (rows : List (Option ActivityRow)) : List (Option ActivityRow) :=
  match user_ids with
  | some us =>
    if us.isEmpty then rows
    else rows.flatMap (fun r =>
      ((db.userLinks.filter (fun l => some l.1 == r.map (fun a => a.id))).filter
        (fun l => us.contains l.2)).map (fun _ => r))
  | none => rows

/-- The rows matching a `read_activities` call, before ordering and
pagination, in the source's filter order: activity-type join, location
filter, parent filter, user join. -/
def activityMatchedRows (db : DB) (user_ids : Option (List Nat))
    (location_ids parent_ids : Option (List (Option Nat)))
    (activity_types : Option (List Nat)) : List (Option ActivityRow) :=
  activityJoinUsers db user_ids
    (activityFilterParent parent_ids
      (activityFilterLoc location_ids (activityBaseRows db activity_types)))

/-- Embedding of `read_activities`: the page is the matched rows ordered by
`start DESC` with `skip`/`limit` applied, the count is the number of matched
rows of the identically-filtered count statement. -/
def read_activities (db : DB) (skip limit : Nat)
    (user_ids : Option (List Nat))
    (location_ids parent_ids : Option (List (Option Nat)))
    (activity_types : Option (List Nat)) : List (Option ActivityRow) × Nat :=
  let matched := activityMatchedRows db user_ids location_ids parent_ids activity_types
  let sorted := sortByRel
    (fun a b => startDescLe (a.bind (fun x => x.start)) (b.bind (fun x => x.start)))
    matched
  (((sorted.drop skip).take limit),
   (activityMatchedRows db user_ids location_ids parent_ids activity_types).length)

/-- Embedding of `read_activity_locations_by_user_ids`: `location` LEFT OUTER
JOIN `activity` LEFT OUTER JOIN `activityuserlink`, filtered by
`user_id IN (...)`; the data statement is `SELECT DISTINCT location`, the
count statement `COUNT(DISTINCT location.id)`; no ordering, then
`skip`/`limit`. -/
def read_activity_locations_by_user_ids (db : DB) (user_ids : List Nat)
    (skip limit : Nat) : List LocationRow × Nat :=
  let joined : List (LocationRow × Option ActivityRow × Option (Nat × Nat)) :=
    db.locations.flatMap (fun loc =>
      let acts := db.activities.filter (fun a => a.location_id == some loc.id)
      let actRows : List (Option ActivityRow) :=
        if acts.isEmpty then [none] else acts.map some
      actRows.flatMap (fun a =>
        let ls := db.userLinks.filter (fun l => some l.1 == a.map (fun x => x.id))
        let lRows : List (Option (Nat × Nat)) :=
          if ls.isEmpty then [none] else ls.map some
        lRows.map (fun l => (loc, a, l))))
  let filtered := joined.filter (fun t =>
    match t.2.2 with
    | some l => user_ids.contains l.2
    | none => false)
  let page := ((filtered.map (fun t => t.1)).dedup.drop skip).take limit
  (page, ((filtered.map (fun t => t.1.id)).dedup).length)

/-- The LEFT OUTER JOIN of `read_manufacturers` when a `user_id` is supplied:
`manufacturer` joined to the `user_accesses` subquery (accesses filtered to
the given user ids). -/
def manufacturerJoinRows (db : DB) (user_ids : List Nat) :
    List (ManufacturerRow × Option AccessRow) :=
  let user_accesses := db.manufacturerAccesses.filter
    (fun a => user_ids.contains a.user_id)
  db.manufacturers.flatMap (fun m =>
    let ms := user_accesses.filter (fun a => a.manufacturer_id == m.id)
    if ms.isEmpty then [(m, none)] else ms.map (fun a => (m, some a)))

/-- Python truthiness of the `access_roles` parameter. -/
def rolesTruthy (access_roles : Option (List Nat)) : Bool :=
  match access_roles with
  | some rs => !rs.isEmpty
  | none => false

/-- `filter_user` of `read_manufacturers` (only used when a `user_id` was
supplied): disabled (TRUE) when looking only for public manufacturers with
no role filter, otherwise `user_accesses.user_id == user_id` (NULL fails). -/
def manufacturerFilterUser (user_id : Nat) (hidden : Option Bool)
    (access_roles : Option (List Nat))
    (row : ManufacturerRow × Option AccessRow) : Bool :=
  if access_roles == none && hidden == some false then true
  else
    match row.2 with
    | some a => a.user_id == user_id
    | none => false

/-- `filter_roles` of `read_manufacturers`: `role IN (...)` for a non-empty
collection, `role IS NULL` for an empty one, TRUE when absent. -/
def manufacturerFilterRoles (access_roles : Option (List Nat))
    (row : ManufacturerRow × Option AccessRow) : Bool :=
  match access_roles with
  | some rs =>
    if rs.isEmpty then row.2.isNone
    else
      match row.2 with
      | some a => rs.contains a.role
      | none => false
  | none => true

/-- `filter_access = and_(filter_roles, filter_user)`; TRUE when no `user_id`
was supplied. -/
def manufacturerFilterAccess (user_id : Option Nat) (hidden : Option Bool)
    (access_roles : Option (List Nat))
    (row : ManufacturerRow × Option AccessRow) : Bool :=
  match user_id with
  | some uid =>
    manufacturerFilterRoles access_roles row
      && manufacturerFilterUser uid hidden access_roles row
  | none => true

/-- `filter_hidden` of `read_manufacturers`: the explicit `hidden` value if
given, else `hidden IS FALSE` when a `user_id` but no truthy role filter was
supplied, else TRUE. -/
def manufacturerFilterHidden (user_id : Option Nat) (hidden : Option Bool)
    (access_roles : Option (List Nat)) (m : ManufacturerRow) : Bool :=
  match hidden with
  | some b => m.hidden == b
  | none =>
    if user_id.isSome && !(rolesTruthy access_roles) then m.hidden == false
    else true

/-- The combined filter of `read_manufacturers`: OR exactly when a `user_id`
is supplied with `access_roles is None and hidden is None`, otherwise AND. -/
def manufacturerFilters (user_id : Option Nat) (hidden : Option Bool)
    (access_roles : Option (List Nat))
    (row : ManufacturerRow × Option AccessRow) : Bool :=
  if user_id.isSome && access_roles == none && hidden == none then
    manufacturerFilterHidden user_id hidden access_roles row.1
      || manufacturerFilterAccess user_id hidden access_roles row
  else
    manufacturerFilterHidden user_id hidden access_roles row.1
      && manufacturerFilterAccess user_id hidden access_roles row

/-- Embedding of `read_manufacturers`: join (only with a `user_id`), combined
filter on both statements, `ORDER BY lower(name)`, pagination on the data
statement only; the page pairs each manufacturer with the joined role. -/
def read_manufacturers (db : DB) (skip limit : Nat) (user_id : Option Nat)
    (hidden : Option Bool) (access_roles : Option (List Nat)) :
    List (ManufacturerRow × Option Nat) × Nat :=
  let rows : List (ManufacturerRow × Option AccessRow) :=
    match user_id with
    | some uid => manufacturerJoinRows db [uid]
    | none => db.manufacturers.map (fun m => (m, none))
  let matched := rows.filter (manufacturerFilters user_id hidden access_roles)
  let sorted := sortByRel
    (fun a b => charListLe (lowerKey a.1.name) (lowerKey b.1.name)) matched
  ((((sorted.drop skip).take limit).map
      (fun r => (r.1, r.2.map (fun a => a.role)))),
   (rows.filter (manufacturerFilters user_id hidden access_roles)).length)

/-- The association rows an update leaves for one table: untouched for an
absent collection, otherwise all rows of other owners followed by one fresh
row per element. -/
def syncPairs (rows : List (Nat × Nat)) (owner : Nat) :
    Option (List Nat) → List (Nat × Nat)
  | none => rows
  | some s => rows.filter (fun l => !(l.1 == owner)) ++ s.map (fun t => (owner, t))

/-- The statements an association synchronization executes. -/
def syncTrace (del : Stmt) (ins : List Nat → Stmt) :
    Option (List Nat) → List Stmt
  | none => []
  | some s => if s.isEmpty then [del] else [del, ins s]

theorem update_activity_assoc_only (db : DB) (aid : Nat)
    (users types : Option (List Nat)) (commit : Bool) :
    update_activity_by_id db aid none none none none none users types none commit
      = Except.ok
          ({ db with
              userLinks := syncPairs db.userLinks aid users
              typeAssocs := syncPairs db.typeAssocs aid types },
           syncTrace (Stmt.deleteUserLinks aid) (Stmt.insertUserLinks aid) users
             ++ syncTrace (Stmt.deleteTypeAssocs aid) (Stmt.insertTypeAssocs aid)
                 types) := by
  cases users with
  | none =>
    cases types with
    | none => rfl
    | some ts =>
      by_cases h : ts.isEmpty = true
      · obtain rfl : ts = [] := List.isEmpty_iff.mp h
        simp [update_activity_by_id, syncPairs, syncTrace, ActivityData.isEmpty, refEntry]
      · rw [Bool.not_eq_true] at h
        simp [update_activity_by_id, syncPairs, syncTrace, ActivityData.isEmpty, refEntry, h]
  | some us =>
    cases types with
    | none =>
      by_cases h : us.isEmpty = true
      · obtain rfl : us = [] := List.isEmpty_iff.mp h
        simp [update_activity_by_id, syncPairs, syncTrace, ActivityData.isEmpty, refEntry]
      · rw [Bool.not_eq_true] at h
        simp [update_activity_by_id, syncPairs, syncTrace, ActivityData.isEmpty, refEntry, h]
    | some ts =>
      by_cases h : us.isEmpty = true
      · obtain rfl : us = [] := List.isEmpty_iff.mp h
        by_cases h2 : ts.isEmpty = true
        · obtain rfl : ts = [] := List.isEmpty_iff.mp h2
          simp [update_activity_by_id, syncPairs, syncTrace, ActivityData.isEmpty, refEntry]
        · rw [Bool.not_eq_true] at h2
          simp [update_activity_by_id, syncPairs, syncTrace, ActivityData.isEmpty, refEntry, h2]
      · rw [Bool.not_eq_true] at h
        by_cases h2 : ts.isEmpty = true
        · obtain rfl : ts = [] := List.isEmpty_iff.mp h2
          simp [update_activity_by_id, syncPairs, syncTrace, ActivityData.isEmpty, refEntry, h]
        · rw [Bool.not_eq_true] at h2
          simp [update_activity_by_id, syncPairs, syncTrace, ActivityData.isEmpty, refEntry, h, h2]

theorem update_location_types_only (db : DB) (lid : Nat)
    (activity_types : Option (List Nat)) (commit : Bool) :
    update_location_by_id db lid none none none none activity_types none commit
      = Except.ok
          ({ db with
              locationTypeAssocs := syncPairs db.locationTypeAssocs lid activity_types },
           syncTrace (Stmt.deleteLocationTypeAssocs lid)
               (Stmt.insertLocationTypeAssocs lid) activity_types
             ++ (if commit then [Stmt.commitTx] else [])) := by
  cases activity_types with
  | none => rfl
  | some ats =>
    by_cases h : ats.isEmpty = true
    · obtain rfl : ats = [] := List.isEmpty_iff.mp h
      simp [update_location_by_id, syncPairs, syncTrace, LocationData.isEmpty]
    · rw [Bool.not_eq_true] at h
      simp [update_location_by_id, syncPairs, syncTrace, LocationData.isEmpty, h]

theorem syncPairs_owner_rows (xs : List (Nat × Nat)) (owner : Nat) (S : List Nat) :
    (syncPairs xs owner (some S)).filter (fun l => l.1 == owner)
      = S.map (fun t => (owner, t)) := by
  simp only [syncPairs, List.filter_append]
  have h1 : (xs.filter (fun l => !(l.1 == owner))).filter (fun l => l.1 == owner)
      = [] := by
    induction xs with
    | nil => rfl
    | cons x xs ih =>
      by_cases h : x.1 = owner <;> simp [List.filter_cons, h, ih]
  have h2 : (S.map (fun t => (owner, t))).filter (fun l => l.1 == owner)
      = S.map (fun t => (owner, t)) := by
    induction S with
    | nil => rfl
    | cons a as ih => simp [List.filter_cons, ih]
  rw [h1, h2, List.nil_append]

theorem syncPairs_idem (xs : List (Nat × Nat)) (owner : Nat) (S : List Nat) :
    syncPairs (syncPairs xs owner (some S)) owner (some S)
      = syncPairs xs owner (some S) := by
  simp only [syncPairs, List.filter_append]
  have h1 : (xs.filter (fun l => !(l.1 == owner))).filter (fun l => !(l.1 == owner))
      = xs.filter (fun l => !(l.1 == owner)) := by
    induction xs with
    | nil => rfl
    | cons x xs ih =>
      by_cases h : x.1 = owner <;> simp [List.filter_cons, h, ih]
  have h2 : (S.map (fun t => (owner, t))).filter (fun l => !(l.1 == owner)) = [] := by
    induction S with
    | nil => rfl
    | cons a as ih => simp [List.filter_cons, ih]
  rw [h1, h2, List.append_nil]

theorem syncPairs_owner_nodup (xs : List (Nat × Nat)) (owner : Nat)
    {S : List Nat} (hS : S.Nodup) :
    ((syncPairs xs owner (some S)).filter (fun l => l.1 == owner)).Nodup := by
  rw [syncPairs_owner_rows]
  exact hS.map (fun a b hab => by simpa using hab)

/-- C2: the null-aware filter builder.  When the collection contains the null
marker the predicate holds exactly when the column's value is among the
non-null values or the column is NULL; with only the null marker, exactly
when the column is NULL; without the marker, exactly when the value is among
the concrete values. -/
theorem c2_create_filter_in_with_none_cases (coll : List (Option Nat))
    (c : Option Nat) :
    (none ∈ coll →
      (create_filter_in_with_none c coll = true ↔
        (∃ v, c = some v ∧ some v ∈ coll) ∨ c = none))
  ∧ ((none ∈ coll ∧ ∀ x ∈ coll, x = none) →
      (create_filter_in_with_none c coll = true ↔ c = none))
  ∧ (none ∉ coll →
      (create_filter_in_with_none c coll = true ↔
        ∃ v, c = some v ∧ some v ∈ coll)) := by
  refine ⟨?_, ?_, ?_⟩
  · intro hnone
    cases c with
    | none => simp [create_filter_in_with_none, sql_in, hnone]
    | some v => simp [create_filter_in_with_none, sql_in, hnone]
  · rintro ⟨hnone, hall⟩
    cases c with
    | none => simp [create_filter_in_with_none, sql_in, hnone]
    | some v =>
      have hv : some v ∉ coll := fun hmem => by simpa using hall _ hmem
      simp [create_filter_in_with_none, sql_in, hnone, hv]
  · intro hnone
    cases c with
    | none => simp [create_filter_in_with_none, sql_in, hnone]
    | some v => simp [create_filter_in_with_none, sql_in, hnone]

/-- Witness for C2 at a concrete collection and column values. -/
theorem c2_witness :
    (none ∈ ([none, some 1] : List (Option Nat)))
  ∧ (create_filter_in_with_none (some 1) [none, some 1] = true ↔
      (∃ v, (some 1 : Option Nat) = some v ∧ some v ∈ ([none, some 1] : List (Option Nat)))
        ∨ (some 1 : Option Nat) = none) :=
  ⟨by decide, (c2_create_filter_in_with_none_cases [none, some 1] (some 1)).1 (by decide)⟩

/-- Any statement in an association synchronization trace is its DELETE or
its bulk INSERT. -/
theorem mem_syncTrace {del : Stmt} {ins : List Nat → Stmt} {o : Option (List Nat)}
    {s : Stmt} (h : s ∈ syncTrace del ins o) : s = del ∨ ∃ us, s = ins us := by
  cases o with
  | none => simp [syncTrace] at h
  | some l =>
    simp only [syncTrace] at h
    by_cases hl : l.isEmpty = true
    · rw [if_pos hl] at h
      simp at h
      exact Or.inl h
    · rw [if_neg hl] at h
      simp at h
      rcases h with h | h
      · exact Or.inl h
      · exact Or.inr ⟨l, h⟩

/-- C1: association-set synchronization during update.  For a non-`None`
target set `S` (no duplicates, possibly empty) the stored association rows of
the owner become exactly one row per element of `S`, with no duplicate rows;
running the same update again leaves the association table identical; a
`None` collection leaves the association rows untouched.  Stated for the
participant set of `update_activity_by_id` and the activity-type set of
`_update_location_by_id`. -/
theorem c1_association_set_sync (db : DB) (aid lid : Nat) (S : List Nat)
    (hS : S.Nodup) (commit : Bool) :
    (∃ db1 tr1,
      update_activity_by_id db aid none none none none none (some S) none none
          commit = Except.ok (db1, tr1)
        ∧ db1.userLinks.filter (fun l => l.1 == aid) = S.map (fun u => (aid, u))
        ∧ (db1.userLinks.filter (fun l => l.1 == aid)).Nodup
        ∧ ∃ db2 tr2,
            update_activity_by_id db1 aid none none none none none (some S) none
                none commit = Except.ok (db2, tr2)
              ∧ db2.userLinks = db1.userLinks)
  ∧ (∃ db1 tr1,
      update_activity_by_id db aid none none none none none none none none
          commit = Except.ok (db1, tr1)
        ∧ db1.userLinks = db.userLinks ∧ db1.typeAssocs = db.typeAssocs)
  ∧ (∃ db1 tr1,
      update_location_by_id db lid none none none none (some S) none commit
          = Except.ok (db1, tr1)
        ∧ db1.locationTypeAssocs.filter (fun l => l.1 == lid)
            = S.map (fun t => (lid, t))
        ∧ (db1.locationTypeAssocs.filter (fun l => l.1 == lid)).Nodup
        ∧ ∃ db2 tr2,
            update_location_by_id db1 lid none none none none (some S) none
                commit = Except.ok (db2, tr2)
              ∧ db2.locationTypeAssocs = db1.locationTypeAssocs)
  ∧ (∃ db1 tr1,
      update_location_by_id db lid none none none none none none commit
          = Except.ok (db1, tr1)
        ∧ db1.locationTypeAssocs = db.locationTypeAssocs) := by
  refine ⟨?_, ?_, ?_, ?_⟩
  · refine ⟨_, _, update_activity_assoc_only db aid (some S) none commit,
      syncPairs_owner_rows _ _ _, syncPairs_owner_nodup _ _ hS,
      _, _, update_activity_assoc_only _ aid (some S) none commit, ?_⟩
    exact syncPairs_idem _ _ _
  · exact ⟨_, _, update_activity_assoc_only db aid none none commit, rfl, rfl⟩
  · refine ⟨_, _, update_location_types_only db lid (some S) commit,
      syncPairs_owner_rows _ _ _, syncPairs_owner_nodup _ _ hS,
      _, _, update_location_types_only _ lid (some S) commit, ?_⟩
    exact syncPairs_idem _ _ _
  · exact ⟨_, _, update_location_types_only db lid none commit, rfl⟩

/-- Witness for C1 at a concrete owner and target set. -/
theorem c1_witness :
    ([3, 4] : List Nat).Nodup
  ∧ ∃ db1 tr1,
      update_activity_by_id { } 1 none none none none none (some [3, 4]) none
          none true = Except.ok (db1, tr1)
        ∧ db1.userLinks.filter (fun l => l.1 == 1) = [(1, 3), (1, 4)] := by
  refine ⟨by decide, ?_⟩
  obtain ⟨⟨db1, tr1, h1, h2, -, -⟩, -, -, -⟩ :=
    c1_association_set_sync { } 1 0 [3, 4] (by decide) true
  exact ⟨db1, tr1, h1, by rw [h2]; rfl⟩

/-- C5 counterexample: creating a Location with the empty string as its
required name raises no error and performs the insert — the stored rows
change. -/
theorem c5_counterexample :
    create_location { } 7 (some "") none none none none none true
      = Except.ok
          ({ locations := [{ id := 7, name := "" }] }, { id := 7, name := "" },
           [Stmt.insertLocation 7, Stmt.commitTx])
  ∧ ({ locations := [{ id := 7, name := "" }] } : DB) ≠ { } :=
  ⟨rfl, by decide⟩

/-- C5 amended: updating any embedded entity with the empty-string clearing
sentinel for its required title/name raises the validation error before any
statement, and creating with the required field missing raises likewise;
Activity create also rejects an empty title; but Location and Manufacturer
create accept an empty-string name and perform the insert. -/
theorem c5_amended_required_field_validation :
    (∀ (db : DB) (aid : Nat) d s du loc us ts p c,
        update_activity_by_id db aid (some "") d s du loc us ts p c
          = Except.error "Title cannot be empty")
  ∧ (∀ (db : DB) (mid : Nat) sn ds wb hd c,
        update_manufacturer_by_id db mid (some "") sn ds wb hd c
          = Except.error "Name cannot be empty")
  ∧ (∀ (db : DB) (lid : Nat) ab wb lt ats pid c,
        update_location_by_id db lid (some "") ab wb lt ats pid c
          = Except.error "name cannot be empty")
  ∧ (∀ (db : DB) (nid : Nat) d s du loc us ts p c,
        create_activity db nid none d s du loc us ts p c
            = Except.error "Title is required"
          ∧ create_activity db nid (some "") d s du loc us ts p c
            = Except.error "Title is required")
  ∧ (∀ (db : DB) (nid : Nat) ab wb lt ats pid c,
        create_location db nid none ab wb lt ats pid c
          = Except.error "name must be provided")
  ∧ (∀ (db : DB) (nid : Nat) sn ds wb hd c,
        create_manufacturer db nid none sn ds wb hd c
          = Except.error "name is required")
  ∧ (∀ (db : DB) (nid : Nat) c, ∃ r tr,
        create_location db nid (some "") none none none none none c
            = Except.ok ({ db with locations := db.locations ++ [r] }, r, tr)
          ∧ r.name = "")
  ∧ (∀ (db : DB) (nid : Nat) c, ∃ r tr,
        create_manufacturer db nid (some "") none none none none c
            = Except.ok ({ db with manufacturers := db.manufacturers ++ [r] }, r,
                tr)
          ∧ r.name = "") := by
  refine ⟨fun db aid d s du loc us ts p c => rfl,
    fun db mid sn ds wb hd c => rfl,
    fun db lid ab wb lt ats pid c => rfl,
    fun db nid d s du loc us ts p c => ⟨rfl, rfl⟩,
    fun db nid ab wb lt ats pid c => rfl,
    fun db nid sn ds wb hd c => rfl,
    fun db nid c => ⟨_, _, rfl, rfl⟩,
    fun db nid c => ⟨_, _, rfl, rfl⟩⟩

/-- C10: an `update_activity_by_id` call whose resolved scalar change-set is
empty returns before the UPDATE statement and before the commit, even when a
non-`None` users set was supplied: the delete/insert statements of the
association synchronization are executed (staged) but the trace contains no
UPDATE and no COMMIT, and the activity rows themselves are unchanged. -/
theorem c10_assoc_update_returns_before_commit (db : DB) (aid : Nat)
    (S : List Nat) (ts : Option (List Nat)) (commit : Bool) :
    ∃ db1 tr,
      update_activity_by_id db aid none none none none none (some S) ts none
          commit = Except.ok (db1, tr)
        ∧ Stmt.commitTx ∉ tr
        ∧ (∀ n, Stmt.updateActivity n ∉ tr)
        ∧ Stmt.deleteUserLinks aid ∈ tr
        ∧ (S ≠ [] → Stmt.insertUserLinks aid S ∈ tr)
        ∧ db1.activities = db.activities := by
  refine ⟨_, _, update_activity_assoc_only db aid (some S) ts commit,
    ?_, ?_, ?_, ?_, rfl⟩
  · intro hmem
    rcases List.mem_append.mp hmem with h | h
    · rcases mem_syncTrace h with h | ⟨us, h⟩ <;> simp at h
    · rcases mem_syncTrace h with h | ⟨us, h⟩ <;> simp at h
  · intro n hmem
    rcases List.mem_append.mp hmem with h | h
    · rcases mem_syncTrace h with h | ⟨us, h⟩ <;> simp at h
    · rcases mem_syncTrace h with h | ⟨us, h⟩ <;> simp at h
  · apply List.mem_append_left
    by_cases hS : S.isEmpty = true
    · simp [syncTrace, hS]
    · simp [syncTrace, hS]
  · intro h
    have hS : ¬S.isEmpty = true := fun hh => h (List.isEmpty_iff.mp hh)
    apply List.mem_append_left
    simp [syncTrace, hS]

/-- Witness for C10 at a concrete association-only update. -/
theorem c10_witness :
    ∃ db1 tr,
      update_activity_by_id { } 1 none none none none none (some [2]) none none
          true = Except.ok (db1, tr)
        ∧ Stmt.commitTx ∉ tr ∧ Stmt.insertUserLinks 1 [2] ∈ tr := by
  obtain ⟨db1, tr, h1, h2, -, -, h5, -⟩ :=
    c10_assoc_update_returns_before_commit { } 1 [2] none true
  exact ⟨db1, tr, h1, h2, h5 (by decide)⟩

/-- C6: an update whose resolved scalar change-set is empty and which touches
no tag/participant sets performs zero writes: for Activity and Manufacturer
the call returns before any statement (empty trace, state unchanged); for
Location only the transaction commit is executed — no UPDATE, DELETE or
INSERT — and the state is unchanged. -/
theorem c6_empty_update_is_noop (db : DB) (aid mid lid : Nat) (commit : Bool) :
    update_activity_by_id db aid none none none none none none none none commit
        = Except.ok (db, [])
  ∧ update_manufacturer_by_id db mid none none none none none commit
        = Except.ok (db, [])
  ∧ update_location_by_id db lid none none none none none none commit
        = Except.ok (db, if commit then [Stmt.commitTx] else []) := by
  exact ⟨rfl, rfl, rfl⟩

theorem charListLt_asymm : ∀ a b : List Char,
    charListLt a b = true → charListLt b a = false
  | [], [] => by simp [charListLt]
  | [], _ :: _ => by simp [charListLt]
  | _ :: _, [] => by simp [charListLt]
  | a :: as, b :: bs => by
    simp only [charListLt]
    by_cases h1 : a < b
    · have h2 : ¬b < a := lt_asymm h1
      simp [h1, h2]
    · by_cases h2 : b < a
      · simp [h1, h2]
      · simp only [if_neg h1, if_neg h2]
        exact charListLt_asymm as bs

theorem charListLt_connected : ∀ a b c : List Char,
    charListLt a c = true → charListLt a b = true ∨ charListLt b c = true
  | [], [], c => fun h => Or.inr h
  | [], _ :: _, _ => fun _ => Or.inl (by simp [charListLt])
  | _ :: _, b, [] => fun h => by simp [charListLt] at h
  | x :: xs, [], z :: zs => fun _ => Or.inr (by simp [charListLt])
  | x :: xs, y :: ys, z :: zs => fun h => by
    simp only [charListLt] at h ⊢
    by_cases hxy : x < y
    · exact Or.inl (by simp [hxy])
    · by_cases hyx : y < x
      · right
        by_cases hxz : x < z
        · simp [lt_trans hyx hxz]
        · by_cases hzx : z < x
          · simp [hxz, hzx] at h
          · have hxz2 : x = z := le_antisymm (not_lt.mp hzx) (not_lt.mp hxz)
            subst hxz2
            simp [hyx]
      · have hxy2 : x = y := le_antisymm (not_lt.mp hyx) (not_lt.mp hxy)
        subst hxy2
        by_cases hxz : x < z
        · exact Or.inr (by simp [hxz])
        · by_cases hzx : z < x
          · simp [hxz, hzx] at h
          · rw [if_neg hxz, if_neg hzx] at h
            rcases charListLt_connected xs ys zs h with h2 | h2
            · exact Or.inl (by simp [hxy, h2])
            · exact Or.inr (by simp [hxz, hzx, h2])

theorem charListLe_total (a b : List Char) :
    charListLe a b = true ∨ charListLe b a = true := by
  by_cases h : charListLt b a = true
  · right
    simp [charListLe, charListLt_asymm _ _ h]
  · left
    rw [Bool.not_eq_true] at h
    simp [charListLe, h]

theorem charListLe_trans {a b c : List Char} (h1 : charListLe a b = true)
    (h2 : charListLe b c = true) : charListLe a c = true := by
  simp only [charListLe, Bool.not_eq_true'] at h1 h2 ⊢
  by_contra hc
  rw [Bool.not_eq_false] at hc
  rcases charListLt_connected c b a hc with h | h
  · rw [h2] at h
    exact Bool.false_ne_true h
  · rw [h1] at h
    exact Bool.false_ne_true h

theorem startDescLe_total (a b : Option Int) :
    startDescLe a b = true ∨ startDescLe b a = true := by
  cases a <;> cases b <;> simp [startDescLe] <;> omega

theorem startDescLe_trans {a b c : Option Int} (h1 : startDescLe a b = true)
    (h2 : startDescLe b c = true) : startDescLe a c = true := by
  cases a <;> cases b <;> cases c <;> simp_all [startDescLe] <;> omega

theorem sortByRel_sorted {α : Type} (r : α → α → Bool)
    (htot : ∀ a b, r a b = true ∨ r b a = true)
    (htrans : ∀ a b c, r a b = true → r b c = true → r a c = true)
    (l : List α) : (sortByRel r l).Pairwise (fun a b => r a b = true) := by
  haveI : IsTotal α (fun a b => r a b = true) := ⟨htot⟩
  haveI : IsTrans α (fun a b => r a b = true) := ⟨fun a b c => htrans a b c⟩
  exact List.sorted_insertionSort _ l

theorem sortByRel_perm {α : Type} (r : α → α → Bool) (l : List α) :
    List.Perm (sortByRel r l) l :=
  List.perm_insertionSort _ l

theorem activityFilterLoc_nil (lids : Option (List (Option Nat))) :
    activityFilterLoc lids [] = [] := by
  cases lids with
  | none => rfl
  | some ls => by_cases h : ls.isEmpty = true <;> simp [activityFilterLoc, h]

theorem activityFilterParent_nil (pids : Option (List (Option Nat))) :
    activityFilterParent pids [] = [] := by
  cases pids with
  | none => rfl
  | some ps => by_cases h : ps.isEmpty = true <;> simp [activityFilterParent, h]

theorem activityJoinUsers_nil (db : DB) (uids : Option (List Nat)) :
    activityJoinUsers db uids [] = [] := by
  cases uids with
  | none => rfl
  | some us => by_cases h : us.isEmpty = true <;> simp [activityJoinUsers, h]

/-- Concrete database for the C3 counterexample: one activity, no
associations. -/
def dbC3 : DB := { activities := [{ id := 1, title := "t" }] }

/-- C3 counterexample: passing an empty `activity_types` collection to
`read_activities` yields an empty result (the dimension is checked with
`is not None`, not truthiness), while omitting the filter returns the
activity — so the empty collection is not equivalent to no filter, and the
result is empty. -/
theorem c3_counterexample :
    read_activities dbC3 0 10 none none none (some []) = ([], 0)
  ∧ read_activities dbC3 0 10 none none none none
      = ([some { id := 1, title := "t" }], 1)
  ∧ read_activities dbC3 0 10 none none none (some [])
      ≠ read_activities dbC3 0 10 none none none none := by
  refine ⟨by decide, by decide, by decide⟩

/-- C3 amended: for the `user_ids`, `location_ids` and `parent_ids`
dimensions of `read_activities` and both dimensions of `read_locations`, a
`None` or empty collection produces no predicate and the result equals the
unfiltered call.  Two dimensions violate this: the `activity_types`
dimension of `read_activities` skips only on `None` — an empty collection
makes the result empty for every database — and the `access_roles` dimension
of `read_manufacturers` turns an empty collection into `role IS NULL`, so
that with a `user_id` supplied the combined access filter is unsatisfiable
and the result is empty for every database, while without a `user_id` the
parameter has no effect and the empty collection equals no filter. -/
theorem c3_amended_empty_filter_skipping (db : DB) (skip limit uid : Nat)
    (uids : Option (List Nat)) (lids pids : Option (List (Option Nat)))
    (ats lts : Option (List Nat)) (pids2 : Option (List (Option Nat)))
    (hid : Option Bool) :
    read_activities db skip limit (some []) lids pids ats
        = read_activities db skip limit none lids pids ats
  ∧ read_activities db skip limit uids (some []) pids ats
        = read_activities db skip limit uids none pids ats
  ∧ read_activities db skip limit uids lids (some []) ats
        = read_activities db skip limit uids lids none ats
  ∧ read_locations db skip limit (some []) pids2
        = read_locations db skip limit none pids2
  ∧ read_locations db skip limit lts (some [])
        = read_locations db skip limit lts none
  ∧ read_activities db skip limit uids lids pids (some []) = ([], 0)
  ∧ read_manufacturers db skip limit (some uid) hid (some []) = ([], 0)
  ∧ read_manufacturers db skip limit none hid (some [])
        = read_manufacturers db skip limit none hid none := by
  refine ⟨rfl, rfl, rfl, rfl, rfl, ?_, ?_, ?_⟩
  · have h1 : activityBaseRows db (some []) = [] := by
      simp [activityBaseRows, create_filter_in_with_none, sql_in]
    have h0 : activityMatchedRows db uids lids pids (some []) = [] := by
      rw [activityMatchedRows, h1, activityFilterLoc_nil, activityFilterParent_nil,
        activityJoinUsers_nil]
    simp [read_activities, h0, sortByRel]
  · have hfalse : ∀ row, manufacturerFilters (some uid) hid (some []) row
        = false := by
      rintro ⟨m, a⟩
      cases a <;> cases hid <;>
        simp [manufacturerFilters, manufacturerFilterAccess,
          manufacturerFilterRoles, manufacturerFilterUser,
          manufacturerFilterHidden, rolesTruthy]
    have hmatched : (manufacturerJoinRows db [uid]).filter
        (manufacturerFilters (some uid) hid (some [])) = [] := by
      rw [List.filter_eq_nil_iff]
      intro a _
      simp [hfalse a]
    simp [read_manufacturers, hmatched, sortByRel]
  · have hfil : ∀ row, manufacturerFilters none hid (some []) row
        = manufacturerFilters none hid none row := by
      intro row
      cases hid <;> rfl
    have hmatched : (db.manufacturers.map (fun m => (m, none))).filter
          (manufacturerFilters none hid (some []))
        = (db.manufacturers.map (fun m => (m, none))).filter
          (manufacturerFilters none hid none) :=
      List.filter_congr (fun x _ => hfil x)
    simp only [read_manufacturers, hmatched]

/-- Concrete database for the C7 scenario: twelve locations. -/
def db12 : DB := { locations := [
  { id := 1, name := "a" }, { id := 2, name := "b" }, { id := 3, name := "c" },
  { id := 4, name := "d" }, { id := 5, name := "e" }, { id := 6, name := "f" },
  { id := 7, name := "g" }, { id := 8, name := "h" }, { id := 9, name := "i" },
  { id := 10, name := "j" }, { id := 11, name := "k" },
  { id := 12, name := "l" }] }

/-- C7: every read-many operation returns the paginated page and the total
count over the identical combined predicate: the count equals the number of
matching rows and is independent of `skip`/`limit`, every page row is a
matching row, and with `skip=0`, `limit=5` against 12 matching rows the page
has 5 rows and the count is 12. -/
theorem c7_page_and_count (db : DB) (skip limit : Nat)
    (uids : Option (List Nat)) (lids pids : Option (List (Option Nat)))
    (ats lts : Option (List Nat)) (pids2 : Option (List (Option Nat))) :
    (read_activities db skip limit uids lids pids ats).2
        = (activityMatchedRows db uids lids pids ats).length
  ∧ (∀ skip2 limit2, (read_activities db skip limit uids lids pids ats).2
        = (read_activities db skip2 limit2 uids lids pids ats).2)
  ∧ (∀ r, r ∈ (read_activities db skip limit uids lids pids ats).1 →
        r ∈ activityMatchedRows db uids lids pids ats)
  ∧ (read_locations db skip limit lts pids2).2
        = (db.locations.filter (locationMatches lts pids2)).length
  ∧ (∀ skip2 limit2, (read_locations db skip limit lts pids2).2
        = (read_locations db skip2 limit2 lts pids2).2)
  ∧ (∀ r, r ∈ (read_locations db skip limit lts pids2).1 →
        r ∈ db.locations.filter (locationMatches lts pids2))
  ∧ ((read_locations db12 0 5 none none).1.length = 5
       ∧ (read_locations db12 0 5 none none).2 = 12) := by
  refine ⟨rfl, fun skip2 limit2 => rfl, ?_, rfl, fun skip2 limit2 => rfl, ?_,
    by decide, by decide⟩
  · intro r hr
    have hsub := (List.take_sublist limit
      ((sortByRel (fun a b : Option ActivityRow =>
          startDescLe (a.bind fun x => x.start) (b.bind fun x => x.start))
        (activityMatchedRows db uids lids pids ats)).drop skip)).trans
      (List.drop_sublist skip _)
    exact (sortByRel_perm _ _).mem_iff.mp (hsub.mem hr)
  · intro r hr
    have hsub := (List.take_sublist limit
      ((sortByRel (fun a b : LocationRow => strLeB a.name b.name)
        (db.locations.filter (locationMatches lts pids2))).drop skip)).trans
      (List.drop_sublist skip _)
    exact (sortByRel_perm _ _).mem_iff.mp (hsub.mem hr)

/-- Witness for C7 at the concrete twelve-row scenario. -/
theorem c7_witness :
    (read_locations db12 0 5 none none).1.length = 5
  ∧ (read_locations db12 0 5 none none).2 = 12 :=
  (c7_page_and_count db12 0 5 none none none none none none).2.2.2.2.2.2

/-- Concrete database for the C8 counterexample: one activity with two
participant links. -/
def dbC8 : DB := { activities := [{ id := 1, title := "t" }],
                   userLinks := [(1, 5), (1, 6)] }

/-- C8 counterexample: filtering activities by two user ids both linked to
the same activity returns that activity twice in the page — the join has no
DISTINCT. -/
theorem c8_counterexample :
    (read_activities dbC8 0 10 (some [5, 6]) none none none).1
      = [some { id := 1, title := "t" }, some { id := 1, title := "t" }]
  ∧ ¬(read_activities dbC8 0 10 (some [5, 6]) none none none).1.Nodup := by
  refine ⟨by decide, by decide⟩

/-- C8 amended: `read_activity_locations_by_user_ids` selects DISTINCT rows,
so each matching location appears at most once in the page; in
`read_activities` the association-table joins have no DISTINCT and an entity
appears once per matching association row. -/
theorem c8_amended_distinct_locations (db : DB) (user_ids : List Nat)
    (skip limit : Nat) :
    (read_activity_locations_by_user_ids db user_ids skip limit).1.Nodup := by
  simp only [read_activity_locations_by_user_ids]
  exact ((List.take_sublist _ _).trans (List.drop_sublist _ _)).nodup
    (List.nodup_dedup _)

/-- Concrete database for the C9 counterexample: two locations whose names
order differently under case-sensitive and case-insensitive comparison. -/
def dbC9 : DB :=
  { locations := [{ id := 1, name := "a" }, { id := 2, name := "B" }] }

/-- Modelled from the spec words of the claim: a location page ordered by
name case-insensitively. -/
def locationsOrderedCaseInsensitive (db : DB) : List LocationRow :=
  sortByRel (fun a b => charListLe (lowerKey a.name) (lowerKey b.name))
    db.locations

/-- C9 counterexample: `read_locations` orders by `name` without `lower()`,
so the page for names `a` and `B` is `[B, a]` (binary order), not the
case-insensitive `[a, B]` the claim requires. -/
theorem c9_counterexample :
    (read_locations dbC9 0 10 none none).1.map (fun r => r.name) = ["B", "a"]
  ∧ (locationsOrderedCaseInsensitive dbC9).map (fun r => r.name) = ["a", "B"]
  ∧ (read_locations dbC9 0 10 none none).1
      ≠ locationsOrderedCaseInsensitive dbC9 := by
  refine ⟨by decide, by decide, by decide⟩

/-- C9 amended: each read-many page is sorted before pagination — Activity
most-recent-first by `start` among rows that have a start, Manufacturer by
`lower(name)`, Location by `name` in case-sensitive binary order — and
`skip` drops a prefix of the same ordered sequence. -/
theorem c9_amended_default_ordering (db : DB) (skip limit : Nat)
    (uids : Option (List Nat)) (lids pids : Option (List (Option Nat)))
    (ats lts : Option (List Nat)) (pids2 : Option (List (Option Nat)))
    (uid : Option Nat) (hid : Option Bool) (ars : Option (List Nat)) :
    (read_activities db skip limit uids lids pids ats).1.Pairwise
        (fun a b => ∀ t1 t2, a.bind (fun x => x.start) = some t1 →
            b.bind (fun x => x.start) = some t2 → t2 ≤ t1)
  ∧ (read_manufacturers db skip limit uid hid ars).1.Pairwise
        (fun a b => charListLe (lowerKey a.1.name) (lowerKey b.1.name) = true)
  ∧ (read_locations db skip limit lts pids2).1.Pairwise
        (fun a b => strLeB a.name b.name = true)
  ∧ (read_locations db skip limit lts pids2).1
      = ((read_locations db 0 (skip + limit) lts pids2).1).drop skip := by
  refine ⟨?_, ?_, ?_, ?_⟩
  · have hs := sortByRel_sorted
      (fun a b : Option ActivityRow =>
        startDescLe (a.bind fun x => x.start) (b.bind fun x => x.start))
      (fun a b => startDescLe_total _ _)
      (fun a b c h1 h2 => startDescLe_trans h1 h2)
      (activityMatchedRows db uids lids pids ats)
    have hp := hs.sublist
      ((List.take_sublist limit _).trans (List.drop_sublist skip _))
    refine hp.imp ?_
    intro a b h t1 t2 h1 h2
    rw [h1, h2] at h
    simpa [startDescLe] using h
  · have hs := sortByRel_sorted
      (fun a b : ManufacturerRow × Option AccessRow =>
        charListLe (lowerKey a.1.name) (lowerKey b.1.name))
      (fun a b => charListLe_total _ _)
      (fun a b c h1 h2 => charListLe_trans h1 h2)
      ((match uid with
        | some u => manufacturerJoinRows db [u]
        | none => db.manufacturers.map (fun m => (m, none))).filter
        (manufacturerFilters uid hid ars))
    have hp : (((sortByRel
        (fun a b : ManufacturerRow × Option AccessRow =>
          charListLe (lowerKey a.1.name) (lowerKey b.1.name))
        ((match uid with
          | some u => manufacturerJoinRows db [u]
          | none => db.manufacturers.map (fun m => (m, none))).filter
          (manufacturerFilters uid hid ars))).drop skip).take limit).Pairwise
        (fun a b => charListLe (lowerKey a.1.name) (lowerKey b.1.name) = true) :=
      hs.sublist ((List.take_sublist _ _).trans (List.drop_sublist _ _))
    exact hp.map _ (fun a b h => h)
  · have hs := sortByRel_sorted
      (fun a b : LocationRow => strLeB a.name b.name)
      (fun a b => charListLe_total _ _)
      (fun a b c h1 h2 => charListLe_trans h1 h2)
      (db.locations.filter (locationMatches lts pids2))
    exact hs.sublist ((List.take_sublist _ _).trans (List.drop_sublist _ _))
  · simp only [read_locations, List.drop_zero]
    exact List.take_drop skip limit _

/-- Concrete database for the C4 counterexample: one hidden manufacturer
with an access grant. -/
def dbC4 : DB :=
  { manufacturers := [{ id := 1, name := "h", hidden := true }],
    manufacturerAccesses := [{ manufacturer_id := 1, user_id := 7, role := 5 }] }

/-- Modelled from the spec words of the claim: with a visibility filter and
an access-role filter supplied, a row matches if it is public or the owner
has access with one of the requested roles. -/
def c4ClaimMatches (db : DB) (access_roles : List Nat)
    (m : ManufacturerRow) : Bool :=
  (m.hidden == false)
    || db.manufacturerAccesses.any
        (fun a => a.manufacturer_id == m.id && access_roles.contains a.role)

/-- C4 counterexample: with `hidden` and `access_roles` supplied and no
`user_id`, the code combines the filters with AND and returns nothing, while
the claim's OR semantics would match the hidden manufacturer that has an
access grant with the requested role. -/
theorem c4_counterexample :
    read_manufacturers dbC4 0 10 none (some false) (some [5]) = ([], 0)
  ∧ dbC4.manufacturers.filter (c4ClaimMatches dbC4 [5])
      = [{ id := 1, name := "h", hidden := true }] := by
  refine ⟨by decide, by decide⟩

/-- C4 amended: the OR combination applies exactly when a `user_id` is
supplied and neither `hidden` nor `access_roles` is — the combined filter is
then "public or this user has an access row"; in every other case the
visibility and access filters are combined with AND. -/
theorem c4_amended_or_trigger (uid : Nat) (hidden : Option Bool)
    (roles : Option (List Nat)) (u : Option Nat)
    (row : ManufacturerRow × Option AccessRow) :
    (manufacturerFilters (some uid) none none row
        = ((row.1.hidden == false)
            || (match row.2 with
                | some a => a.user_id == uid
                | none => false)))
  ∧ (¬(u.isSome = true ∧ hidden = none ∧ roles = none) →
      manufacturerFilters u hidden roles row
        = (manufacturerFilterHidden u hidden roles row.1
            && manufacturerFilterAccess u hidden roles row)) := by
  constructor
  · rfl
  · intro h
    cases u with
    | none => simp [manufacturerFilters]
    | some uu =>
      cases roles with
      | some rr => simp [manufacturerFilters]
      | none =>
        cases hidden with
        | some bb => simp [manufacturerFilters]
        | none => exact absurd ⟨rfl, rfl, rfl⟩ h

/-- Witness for C4 at a concrete non-OR input. -/
theorem c4_witness :
    manufacturerFilters none (some true) (some [])
        ({ id := 1, name := "m", hidden := false }, none)
      = (manufacturerFilterHidden none (some true) (some [])
            { id := 1, name := "m", hidden := false }
          && manufacturerFilterAccess none (some true) (some [])
            ({ id := 1, name := "m", hidden := false }, none)) :=
  (c4_amended_or_trigger 0 (some true) (some []) none
    ({ id := 1, name := "m", hidden := false }, none)).2 (by decide)

end Mountory
